import Mathlib

/-!
# procon-backend: entitlement check and Stripe webhook ingestion

A shallow embedding of `src/index.js`.  JavaScript values are a small JSON-like
datatype, the three external services (payment gateway, record store,
completion API) are explicit parameters or explicit state, and every route
handler is a pure function from its inputs to a response and a new world.
-/

namespace ProconBackend

/-! ## JavaScript values -/

/-- JSON values plus `undefined`.  A number is held as the text `String(n)` that
JavaScript prints for it, which is `"0"` exactly for zero. -/
inductive JsVal where
  | undefined : JsVal
  | null : JsVal
  | bool (b : Bool) : JsVal
  | num (text : String) : JsVal
  | str (s : String) : JsVal
  | arr (xs : List JsVal) : JsVal
  | obj (fields : List (String × JsVal)) : JsVal

namespace JsVal

/-- JavaScript truthiness (`!v` is the negation of this). -/
def truthy : JsVal → Bool
  | .undefined => false
  | .null => false
  | .bool b => b
  | .num t => t != "0"
  | .str s => s != ""
  | .arr _ => true
  | .obj _ => true

/-- Property read `v.k`: a `TypeError` on `null` and `undefined`, the field of an
object, `undefined` otherwise (none of the keys the program reads is a built-in
property of a string, number, boolean or array). -/
def prop (v : JsVal) (k : String) : Except String JsVal :=
  match v with
  | .undefined => .error "TypeError"
  | .null => .error "TypeError"
  | .obj fields => .ok ((fields.lookup k).getD .undefined)
  | _ => .ok .undefined

/-- Optional chaining `v?.k`: `undefined` on `null` and `undefined`, never throws. -/
def optProp (v : JsVal) (k : String) : JsVal :=
  match v with
  | .obj fields => (fields.lookup k).getD .undefined
  | _ => .undefined

/-- Optional indexing `v?.[i]` with a numeric literal `i`. -/
def optIndex (v : JsVal) (i : Nat) : JsVal :=
  match v with
  | .arr xs => xs.getD i .undefined
  | .obj fields => (fields.lookup (toString i)).getD .undefined
  | .str s => match s.toList.get? i with
    | some c => .str (String.singleton c)
    | none => .undefined
  | _ => .undefined

/-- Strict comparison `v === "s"` with a string literal. -/
def isStr (v : JsVal) (s : String) : Bool :=
  match v with
  | .str t => t == s
  | _ => false

/-- Strict comparison `v === true`. -/
def isTrue (v : JsVal) : Bool :=
  match v with
  | .bool true => true
  | _ => false

/-- Indexing `v[i]` with a numeric literal `i`: a `TypeError` on `null` and
`undefined`. -/
def index (v : JsVal) (i : Nat) : Except String JsVal :=
  match v with
  | .undefined => .error "TypeError"
  | .null => .error "TypeError"
  | w => .ok (w.optIndex i)

mutual
/-- Array elements joined by commas, as `Array.prototype.join` does. -/
def joinElems : List JsVal → String
  | [] => ""
  | [x] => elemText x
  | x :: y :: rest => elemText x ++ "," ++ joinElems (y :: rest)
/-- Text of one array element inside a join: empty for `null` and `undefined`. -/
def elemText : JsVal → String
  | .undefined => ""
  | .null => ""
  | .bool b => if b then "true" else "false"
  | .num t => t
  | .str s => s
  | .arr xs => joinElems xs
  | .obj _ => "[object Object]"
end

/-- String coercion `String(v)`, as in a template literal. -/
def toJsString : JsVal → String
  | .undefined => "undefined"
  | .null => "null"
  | .bool b => if b then "true" else "false"
  | .num t => t
  | .str s => s
  | .arr xs => joinElems xs
  | .obj _ => "[object Object]"

end JsVal

/-! ## HTTP responses -/

/-- What a handler sends: `res.json(v)` or `res.send(text)`. -/
inductive Body where
  | json (v : JsVal) : Body
  | text (s : String) : Body

/-- Status code and body of a response (`res.json` without `res.status` is 200). -/
structure Response where
  status : Nat
  body : Body

/-- The body is a JSON object that has the given field. -/
def Body.hasField (b : Body) (k : String) : Bool :=
  match b with
  | .json (.obj fields) => (fields.lookup k).isSome
  | _ => false

/-- The body is a JSON object. -/
def Body.isJsonObject (b : Body) : Bool :=
  match b with
  | .json (.obj _) => true
  | _ => false

/-! ## The record store (`pro_users` table behind the Supabase client) -/

/-- One row of `pro_users`, with the three columns the program writes; `email` is
a text column. -/
structure Row where
  email : String
  isPro : JsVal
  upgradedAt : JsVal

/-- A request issued to the record store. -/
inductive StoreCall where
  | insert (row : Row) : StoreCall
  | select (email : JsVal) : StoreCall

/-- The part of the outside world the handlers act on: the rows of the table and
the log of the requests sent to the store. -/
structure World where
  rows : List Row
  calls : List StoreCall

/-- The `{ data, error }` pair every Supabase call resolves to (it never rejects). -/
structure QueryResult where
  data : JsVal
  error : JsVal

/-- The error object of a failed store request; an object, hence truthy. -/
def storeError (message : String) : JsVal :=
  .obj [("message", .str message)]

/-- Filter `.eq("email", value)`: the client sends the text `eq.` followed by
`String(value)`, and the store keeps the rows whose column equals that text. -/
def eqFilter (column : String) (value : JsVal) : Bool :=
  column == value.toJsString

/-- Query `.select("isPro").eq("email", email)`: the `isPro` projection of the matching
rows, in table order. -/
def selectIsPro (rows : List Row) (email : JsVal) : List JsVal :=
  (rows.filter (fun r => eqFilter r.email email)).map (fun r => .obj [("isPro", r.isPro)])

/-- Modifier `.maybeSingle()` of supabase-js: no row gives `data: null`, one row gives that
row, more than one row gives the error PGRST116 ("JSON object requested, multiple
(or no) rows returned").  `fault` is a failure of the request itself. -/
def maybeSingle (fault : Option String) (found : List JsVal) : QueryResult :=
  match fault with
  | some m => { data := .null, error := storeError m }
  | none =>
    match found with
    | [] => { data := .null, error := .null }
    | [r] => { data := r, error := .null }
    | _ => { data := .null,
             error := .obj [("code", .str "PGRST116"),
                            ("message", .str "JSON object requested, multiple (or no) rows returned")] }

/-- Call `supabase.from("pro_users").insert([row])`: `fault` is the failure the store
reports, if any; without one the row is appended (plain insert, no upsert). -/
def insertRow (fault : Option String) (w : World) (row : Row) : JsVal × World :=
  match fault with
  | some m => (storeError m, { w with calls := w.calls ++ [.insert row] })
  | none => (.null, { rows := w.rows ++ [row], calls := w.calls ++ [.insert row] })

/-! ## Request bodies and the external services -/

/-- Value of `req.body` when a handler runs: unset, a value produced by the JSON
body parser, or a `Buffer` holding the bytes of the request body. -/
inductive ReqBody where
  | unset : ReqBody
  | json (v : JsVal) : ReqBody
  | buffer (bytes : List Nat) : ReqBody

/-- Outcomes of the external calls made while one request is handled.
`constructEvent payload signature` is
`Stripe(...).webhooks.constructEvent(req.body, sig, STRIPE_WEBHOOK_SECRET)`: the
verified event, or the message of the error it throws.  `now` is
`new Date().toISOString()`.  `insertFault` and `selectFault` are the failures the
record store reports for the insert and for the lookup.  `castEmail` is the text
the store writes in the `email` column for a JSON value that is not a string.
`createSession` is
`stripe.checkout.sessions.create` and `completion` is the `fetch` of the
completion endpoint followed by `.json()`; both may throw. -/
structure Env where
  constructEvent : ReqBody → JsVal → Except String JsVal
  now : String
  insertFault : Option String
  selectFault : Option String
  castEmail : JsVal → String
  createSession : JsVal → JsVal → Except String JsVal
  completion : JsVal → Except String JsVal

/-- What an async handler does: it sends a response, or it throws (error message)
before sending one. -/
abbrev Handled := Except String (Response × World)

/-! ## Webhook ingestion: `POST /stripe-webhook` (second callback) -/

/-- The acknowledgement `res.status(200).json({ received: true })`. -/
def received : Response :=
  { status := 200, body := .json (.obj [("received", .bool true)]) }

/-- Expression `event.data.object.customer_details?.email`, where
`session = event.data.object`. -/
def sessionEmail (event : JsVal) : Except String JsVal := do
  let data ← event.prop "data"
  let session ← data.prop "object"
  let details ← session.prop "customer_details"
  pure (details.optProp "email")

/-- Text the `email` column takes when the row is written: the string itself for a
JSON string, the store's cast for any other value. -/
def emailColumn (env : Env) (email : JsVal) : String :=
  match email with
  | .str s => s
  | v => env.castEmail v

/-- The handler of `POST /stripe-webhook`, given the `req.body` it finds and the
`stripe-signature` header. -/
def stripeWebhook (env : Env) (w : World) (body : ReqBody) (sig : JsVal) : Handled :=
  match env.constructEvent body sig with
  | .error message =>
    .ok ({ status := 400, body := .text ("Webhook Error: " ++ message) }, w)
  | .ok event => do
    let type ← event.prop "type"
    if type.isStr "checkout.session.completed" then
      let email ← sessionEmail event
      if !email.truthy then
        pure ({ status := 400, body := .text "Missing email" }, w)
      else
        let (error, w1) :=
          insertRow env.insertFault w
            { email := emailColumn env email, isPro := .bool true,
              upgradedAt := .str env.now }
        if error.truthy then
          pure ({ status := 500, body := .text "Failed to store Pro user" }, w1)
        else
          pure (received, w1)
    else
      pure (received, w)

/-! ## Entitlement check -/

/-- The decision of `isProUserByEmail` on the result of its query:
`if (error) return false; return data?.isPro === true`. -/
def entitled (r : QueryResult) : Bool :=
  if r.error.truthy then false else (r.data.optProp "isPro").isTrue

/-- The lookup `isProUserByEmail` issues:
`.from("pro_users").select("isPro").eq("email", email).maybeSingle()`. -/
def lookup (env : Env) (w : World) (email : JsVal) : QueryResult :=
  maybeSingle env.selectFault (selectIsPro w.rows email)

/-- Function `isProUserByEmail(email)`: one lookup in the store, then the
decision. -/
def isProUserByEmail (env : Env) (w : World) (email : JsVal) : Bool × World :=
  (entitled (lookup env w email), { w with calls := w.calls ++ [.select email] })

/-- Body `{ isPro: false, error: "Missing email" }` with status 400. -/
def missingEmailCheck : Response :=
  { status := 400,
    body := .json (.obj [("isPro", .bool false), ("error", .str "Missing email")]) }

/-- Shared tail of both `/check-pro` handlers, from the value read as `email`. -/
def checkPro (env : Env) (w : World) (email : JsVal) : Response × World :=
  if !email.truthy then
    (missingEmailCheck, w)
  else
    let (result, w1) := isProUserByEmail env w email
    ({ status := 200, body := .json (.obj [("isPro", .bool result)]) }, w1)

/-- Handler of `GET /check-pro`; `query` is `req.query`. -/
def checkProGet (env : Env) (w : World) (query : JsVal) : Handled := do
  let email ← query.prop "email"
  pure (checkPro env w email)

/-- Handler of `POST /check-pro`; `body` is `req.body`. -/
def checkProPost (env : Env) (w : World) (body : JsVal) : Handled := do
  let email ← body.prop "email"
  pure (checkPro env w email)

/-! ## Checkout session and completion passthrough -/

/-- Handler of `POST /create-checkout-session`; `body` is `req.body`. -/
def createCheckoutSession (env : Env) (w : World) (body : JsVal) : Handled := do
  let priceId ← body.prop "priceId"
  let email ← body.prop "email"
  if !email.truthy then
    pure ({ status := 400, body := .json (.obj [("error", .str "Missing email")]) }, w)
  else
    match (do let session ← env.createSession priceId email
              session.prop "id") with
    | .ok id => pure ({ status := 200, body := .json (.obj [("sessionId", id)]) }, w)
    | .error _ =>
      pure ({ status := 500,
              body := .json (.obj [("error", .str "Failed to create checkout session")]) }, w)

/-- Condition `data.choices?.[0]?.message?.content` of the `/analyze` handler. -/
def firstChoiceText (data : JsVal) : Except String JsVal := do
  let choices ← data.prop "choices"
  pure (((choices.optIndex 0).optProp "message").optProp "content")

/-- Expression `data.choices[0].message?.content` sent back as the summary. -/
def summaryText (data : JsVal) : Except String JsVal := do
  let choices ← data.prop "choices"
  let choice ← choices.index 0
  let message ← choice.prop "message"
  pure (message.optProp "content")

/-- The `try` block of the `/analyze` handler: call the completion API and build
the response; a throw inside it reaches the `catch`. -/
def relayCompletion (env : Env) (selectedText : JsVal) : Except String Response := do
  let data ← env.completion selectedText
  let text ← firstChoiceText data
  if text.truthy then
    let summary ← summaryText data
    pure { status := 200, body := .json (.obj [("summary", summary)]) }
  else
    pure { status := 500,
           body := .json (.obj [("error", .str "OpenAI response failed."), ("data", data)]) }

/-- Handler of `POST /analyze`; `body` is `req.body`. -/
def analyze (env : Env) (w : World) (body : JsVal) : Handled := do
  let selectedText ← body.prop "selectedText"
  let email ← body.prop "email"
  if !selectedText.truthy || !email.truthy then
    pure ({ status := 400,
            body := .json (.obj [("error", .str "Missing selectedText or email")]) }, w)
  else
    let (_isPro, w1) := isProUserByEmail env w email
    match relayCompletion env selectedText with
    | .ok res => pure (res, w1)
    | .error _ =>
      pure ({ status := 500, body := .json (.obj [("error", .str "Internal server error")]) }, w1)

/-! ## The body parsers in front of `POST /stripe-webhook` -/

/-- An incoming request, before any middleware has run: media type and (lower
case) charset parameter of its `Content-Type` header, whether it carries a body,
the bytes of that body and the `stripe-signature` header. -/
structure Request where
  method : String
  contentType : Option String
  charset : Option String
  hasBody : Bool
  rawBody : List Nat
  signature : JsVal

/-- The request object the middleware chain threads: `req.body` and the flag
`req._body` a body parser sets once it has consumed the body. -/
structure Req where
  request : Request
  body : ReqBody
  parsed : Bool

/-- Default size limit of the body parsers (`"100kb"`). -/
def bodyLimit : Nat := 102400

/-- Middleware `express.json()`, registered with `app.use` before every route.
It passes a request whose body was already consumed (`req._body`), defaults
`req.body` to an empty object, passes a request without a body or with another
media type, refuses a charset that is not a `utf-` one with 415, and otherwise
reads the body, marks it consumed and stores the parsed value.  `parse` is `JSON.parse` in strict mode (`none` for a body that is not a
JSON object or array).  An error is the status handed to `next(err)`. -/
def expressJson (parse : List Nat → Option JsVal) (r : Req) : Except Nat Req :=
  if r.parsed then .ok r
  else
    let r1 : Req :=
      match r.body with
      | .unset => { r with body := .json (.obj []) }
      | _ => r
    if !r1.request.hasBody then .ok r1
    else if r1.request.contentType != some "application/json" then .ok r1
    else if ((r1.request.charset.getD "utf-8").take 4) != "utf-" then .error 415
    else if r1.request.rawBody.length > bodyLimit then .error 413
    else if r1.request.rawBody.isEmpty then
      .ok { r1 with body := .json (.obj []), parsed := true }
    else
      match parse r1.request.rawBody with
      | some v => .ok { r1 with body := .json v, parsed := true }
      | none => .error 400

/-- Middleware `bodyParser.raw` for the media type `application/json`: the same
steps as `express.json()`, without the charset check, and the bytes read are
stored unparsed as a `Buffer`. -/
def bodyParserRaw (r : Req) : Except Nat Req :=
  if r.parsed then .ok r
  else
    let r1 : Req :=
      match r.body with
      | .unset => { r with body := .json (.obj []) }
      | _ => r
    if !r1.request.hasBody then .ok r1
    else if r1.request.contentType != some "application/json" then .ok r1
    else if r1.request.rawBody.length > bodyLimit then .error 413
    else .ok { r1 with body := .buffer r1.request.rawBody, parsed := true }

/-- First callback of the `/stripe-webhook` route. -/
def webhookRawBody (r : Req) : Except Nat Req :=
  if r.request.method == "POST" then bodyParserRaw r else .ok r

/-- The request as the second callback of `POST /stripe-webhook` sees it: through
`app.use(express.json())` first, then through the route's own first callback. -/
def webhookReq (parse : List Nat → Option JsVal) (request : Request) : Except Nat Req := do
  let r ← expressJson parse { request := request, body := .unset, parsed := false }
  webhookRawBody r

/-- The first argument `constructEvent` receives for a request, when the handler
is reached. -/
def webhookPayload (parse : List Nat → Option JsVal) (request : Request) :
    Except Nat ReqBody := do
  let r ← webhookReq parse request
  pure r.body

/-- Route `POST /stripe-webhook` end to end: an error of a body parser is answered
by the framework with its status, otherwise the handler runs on `req.body`. -/
def stripeWebhookRoute (parse : List Nat → Option JsVal) (env : Env) (w : World)
    (request : Request) : Except Nat Handled := do
  let r ← webhookReq parse request
  pure (stripeWebhook env w r.body r.request.signature)

/-- The webhook handler applied to a sequence of deliveries, in order; a delivery
whose handler throws leaves the world as it was. -/
def ingestAll (w : World) : List (Env × ReqBody × JsVal) → World
  | [] => w
  | (env, body, sig) :: rest =>
    match stripeWebhook env w body sig with
    | .ok (_, w1) => ingestAll w1 rest
    | .error _ => ingestAll w rest

/-! ## Predicates and projections used in the statements -/

/-- The value of `req.body` is one produced by the JSON body parser. -/
def ReqBody.isJson : ReqBody → Bool
  | .json _ => true
  | _ => false

/-- A delivery is a verified event object whose `type` field is
`checkout.session.completed` and whose `data.object.customer_details.email` field
is the non-empty string `e`, and the store accepts the insert. -/
def CompletedCheckout (env : Env) (body : ReqBody) (sig : JsVal) (e : String) : Prop :=
  ∃ (event data session details : List (String × JsVal)),
    env.constructEvent body sig = .ok (.obj event) ∧
    event.lookup "type" = some (.str "checkout.session.completed") ∧
    event.lookup "data" = some (.obj data) ∧
    data.lookup "object" = some (.obj session) ∧
    session.lookup "customer_details" = some (.obj details) ∧
    details.lookup "email" = some (.str e) ∧
    e ≠ "" ∧ env.insertFault = none

/-- The value the awaited lookup resolves to: the object whose `data` and `error`
fields the function destructures. -/
def QueryResult.toJs (r : QueryResult) : JsVal :=
  .obj [("data", r.data), ("error", r.error)]

/-- The body of `isProUserByEmail` after the `await`, statement by statement, with
property reads that throw on `null` and `undefined`. -/
def isProUserByEmailSteps (awaited : JsVal) : Except String Bool := do
  let data ← awaited.prop "data"
  let error ← awaited.prop "error"
  if error.truthy then pure false
  else pure (data.optProp "isPro").isTrue

/-- The response alone, without the world. -/
def responseOf (h : Handled) : Except String Response :=
  match h with
  | .ok (res, _) => .ok res
  | .error m => .error m

/-! ## Sample inputs -/

/-- A `checkout.session.completed` event for the given customer email. -/
def checkoutEvent (email : JsVal) : JsVal :=
  .obj [("type", .str "checkout.session.completed"),
        ("data", .obj [("object", .obj [("customer_details", .obj [("email", email)])])])]

/-- An event of another type. -/
def invoiceEvent : JsVal :=
  .obj [("type", .str "invoice.paid"), ("data", .obj [("object", .obj [])])]

/-- A completion with one choice carrying the given text. -/
def completionWith (text : String) : JsVal :=
  .obj [("choices", .arr [.obj [("message", .obj [("role", .str "assistant"),
                                                  ("content", .str text)])]])]

/-- An environment in which verification yields `event`, no store request fails,
and the completion API answers "ok". -/
def envVerified (event : JsVal) : Env :=
  { constructEvent := fun _ _ => .ok event
    now := "2025-01-01T00:00:00.000Z"
    insertFault := none
    selectFault := none
    castEmail := fun v => v.toJsString
    createSession := fun _ _ => .ok (.obj [("id", .str "cs_test_1")])
    completion := fun _ => .ok (completionWith "ok") }

/-- An environment in which verification fails and every external call fails. -/
def envFailing : Env :=
  { constructEvent := fun _ _ => .error "No signatures found matching the expected signature for payload"
    now := "2025-01-01T00:00:00.000Z"
    insertFault := some "connection refused"
    selectFault := some "connection refused"
    castEmail := fun v => v.toJsString
    createSession := fun _ _ => .error "No such price"
    completion := fun _ => .error "fetch failed" }

/-- The empty table. -/
def emptyWorld : World := { rows := [], calls := [] }

/-- A Pro row for the given email. -/
def proRow (email : String) (at_ : String) : Row :=
  { email := email, isPro := .bool true, upgradedAt := .str at_ }

/-- A JSON webhook delivery whose body is a small JSON object. -/
def jsonDelivery : Request :=
  { method := "POST"
    contentType := some "application/json"
    charset := some "utf-8"
    hasBody := true
    rawBody := [123, 34, 105, 100, 34, 58, 49, 125]
    signature := .str "t=1,v1=00" }

/-- An environment whose completion API answers with one choice carrying the
given text, over a store that works. -/
def envCompletion (text : String) : Env :=
  { envVerified .null with completion := fun _ => .ok (completionWith text) }

/-- The request body of the scenario: a selected text and an email. -/
def analyzeBody : JsVal :=
  .obj [("selectedText", .str "We collect your location."), ("email", .str "x@y.com")]

/-- An environment in which verification yields `event` and the store refuses the
insert. -/
def envInsertFails (event : JsVal) : Env :=
  { envVerified event with insertFault := some "permission denied" }

/-! ## Body parsing in front of the webhook -/

lemma expressJson_fresh (parse : List Nat → Option JsVal) (request : Request) (r : Req)
    (h : expressJson parse { request := request, body := .unset, parsed := false } = .ok r) :
    r.request = request ∧ r.body.isJson = true ∧
      (r.parsed = true ∨
        (request.hasBody = false ∨ request.contentType ≠ some "application/json")) := by
  unfold expressJson at h
  simp only [Bool.false_eq_true, if_false] at h
  split at h
  · rename_i hb
    cases h
    refine ⟨rfl, rfl, Or.inr (Or.inl ?_)⟩
    simpa using hb
  · split at h
    · rename_i hc
      cases h
      refine ⟨rfl, rfl, Or.inr (Or.inr ?_)⟩
      simpa using hc
    · split at h
      · cases h
      · split at h
        · cases h
        · split at h
          · cases h
            exact ⟨rfl, rfl, Or.inl rfl⟩
          · split at h
            · cases h
              exact ⟨rfl, rfl, Or.inl rfl⟩
            · cases h

lemma bodyParserRaw_skips (r : Req)
    (h : r.parsed = true ∨
      (r.request.hasBody = false ∨ r.request.contentType ≠ some "application/json"))
    (hb : r.body.isJson = true) :
    ∃ r1, bodyParserRaw r = .ok r1 ∧ r1.body.isJson = true := by
  unfold bodyParserRaw
  rcases h with h | h | h
  · exact ⟨r, by simp [h], hb⟩
  · by_cases hp : r.parsed = true
    · exact ⟨r, by simp [hp], hb⟩
    · cases hbody : r.body <;> simp [hp, h, hbody, ReqBody.isJson] at hb ⊢
  · by_cases hp : r.parsed = true
    · exact ⟨r, by simp [hp], hb⟩
    · cases hbody : r.body <;> simp [hp, h, hbody, ReqBody.isJson] at hb ⊢

lemma webhookPayload_isJson (parse : List Nat → Option JsVal) (request : Request)
    (b : ReqBody) (h : webhookPayload parse request = .ok b) : b.isJson = true := by
  unfold webhookPayload webhookReq at h
  cases hj : expressJson parse { request := request, body := .unset, parsed := false } with
  | error e => simp [hj, bind, Except.bind] at h
  | ok r =>
    obtain ⟨hreq, hbody, hskip⟩ := expressJson_fresh parse request r hj
    have hskip1 : r.parsed = true ∨
        (r.request.hasBody = false ∨ r.request.contentType ≠ some "application/json") := by
      rw [hreq]; exact hskip
    unfold webhookRawBody at h
    obtain ⟨r1, hr1, hb1⟩ := bodyParserRaw_skips r hskip1 hbody
    by_cases hm : (r.request.method == "POST") = true
    · simp [hj, bind, Except.bind, hm, hr1, pure, Except.pure] at h
      rw [← h]; exact hb1
    · simp [hj, bind, Except.bind, hm, pure, Except.pure] at h
      rw [← h]; exact hbody

/-- C1 (the code departs from the claim): for every request and every JSON parser,
the payload that `constructEvent` receives on `POST /stripe-webhook` is never the
buffer of raw request bytes; on the JSON delivery `jsonDelivery` it is the value
that `express.json()` parsed, because that parser runs first and makes
`bodyParser.raw` skip the request, and the route runs its handler on that parsed
value. -/
theorem webhook_payload_is_parsed_not_raw :
    (∀ (parse : List Nat → Option JsVal) (request : Request) (bytes : List Nat),
        webhookPayload parse request ≠ .ok (.buffer bytes)) ∧
    (∀ v : JsVal, webhookPayload (fun _ => some v) jsonDelivery = .ok (.json v)) ∧
    (∀ (env : Env) (w : World) (v : JsVal),
        stripeWebhookRoute (fun _ => some v) env w jsonDelivery =
          .ok (stripeWebhook env w (.json v) jsonDelivery.signature)) := by
  refine ⟨?_, ?_, ?_⟩
  · intro parse request bytes h
    have := webhookPayload_isJson parse request _ h
    simp [ReqBody.isJson] at this
  · intro v
    rfl
  · intro env w v
    rfl

/-! ## Webhook ingestion -/

/-- C2: when `constructEvent` throws for the body and signature header, the
handler answers 400 with the text "Webhook Error: " followed by the message, and
the world is unchanged: no row is written and no request is sent to the store. -/
theorem stripeWebhook_rejects_bad_signature (env : Env) (w : World) (body : ReqBody)
    (sig : JsVal) (message : String)
    (h : env.constructEvent body sig = .error message) :
    stripeWebhook env w body sig =
      .ok ({ status := 400, body := .text ("Webhook Error: " ++ message) }, w) := by
  simp [stripeWebhook, h]

theorem stripeWebhook_rejects_bad_signature_witness :
    envFailing.constructEvent (.json (.obj [])) (.str "t=1,v1=00") =
        .error "No signatures found matching the expected signature for payload" ∧
      stripeWebhook envFailing emptyWorld (.json (.obj [])) (.str "t=1,v1=00") =
        .ok ({ status := 400,
               body := .text ("Webhook Error: " ++
                 "No signatures found matching the expected signature for payload") },
             emptyWorld) :=
  ⟨rfl, stripeWebhook_rejects_bad_signature envFailing emptyWorld _ _ _ rfl⟩

lemma sessionEmail_of_fields (event data session details : List (String × JsVal))
    (email : JsVal)
    (hd : event.lookup "data" = some (.obj data))
    (ho : data.lookup "object" = some (.obj session))
    (hc : session.lookup "customer_details" = some (.obj details))
    (he : details.lookup "email" = some email) :
    sessionEmail (.obj event) = .ok email := by
  simp [sessionEmail, JsVal.prop, JsVal.optProp, hd, ho, hc, he, bind, Except.bind, pure,
    Except.pure]

lemma stripeWebhook_completed (env : Env) (w : World) (body : ReqBody) (sig : JsVal)
    (e : String) (h : CompletedCheckout env body sig e) :
    stripeWebhook env w body sig =
      .ok (received,
           { rows := w.rows ++ [{ email := e, isPro := .bool true,
                                  upgradedAt := .str env.now }],
             calls := w.calls ++ [.insert { email := e, isPro := .bool true,
                                            upgradedAt := .str env.now }] }) := by
  obtain ⟨event, data, session, details, hv, ht, hd, ho, hc, he, hne, hi⟩ := h
  have hse := sessionEmail_of_fields event data session details (.str e) hd ho hc he
  simp [stripeWebhook, hv, JsVal.prop, ht, hse, hi, bind, Except.bind, pure, Except.pure,
    JsVal.isStr, JsVal.truthy, hne, insertRow, emailColumn]

/-- C3: a verified event object whose `type` is `checkout.session.completed` and
whose `data.object.customer_details.email` is the non-empty string `e`, and whose
insert the store accepts, is answered 200 with `received: true` and appends
exactly one row with email `e`, `isPro = true` and the current time, whatever the
table held before; delivering the event a second time appends a second such row
(plain insert, no upsert). -/
theorem stripeWebhook_inserts_one_row_each_time (env env2 : Env) (w : World)
    (body : ReqBody) (sig : JsVal) (e : String)
    (h : CompletedCheckout env body sig e) (h2 : CompletedCheckout env2 body sig e) :
    stripeWebhook env w body sig =
      .ok ({ status := 200, body := .json (.obj [("received", .bool true)]) },
           { rows := w.rows ++ [{ email := e, isPro := .bool true,
                                  upgradedAt := .str env.now }],
             calls := w.calls ++ [.insert { email := e, isPro := .bool true,
                                            upgradedAt := .str env.now }] }) ∧
    (ingestAll w [(env, body, sig), (env2, body, sig)]).rows =
      w.rows ++ [{ email := e, isPro := .bool true, upgradedAt := .str env.now },
                 { email := e, isPro := .bool true, upgradedAt := .str env2.now }] := by
  constructor
  · exact stripeWebhook_completed env w body sig e h
  · simp [ingestAll, stripeWebhook_completed env w body sig e h,
      stripeWebhook_completed env2 _ body sig e h2]

lemma completedCheckout_sample :
    CompletedCheckout (envVerified (checkoutEvent (.str "a@b.com")))
      (.buffer [123, 125]) (.str "t=1,v1=00") "a@b.com" :=
  ⟨_, _, _, _, rfl, rfl, rfl, rfl, rfl, rfl, by decide, rfl⟩

theorem stripeWebhook_inserts_one_row_each_time_witness :
    CompletedCheckout (envVerified (checkoutEvent (.str "a@b.com")))
      (.buffer [123, 125]) (.str "t=1,v1=00") "a@b.com" ∧
    stripeWebhook (envVerified (checkoutEvent (.str "a@b.com"))) emptyWorld
        (.buffer [123, 125]) (.str "t=1,v1=00") =
      .ok ({ status := 200, body := .json (.obj [("received", .bool true)]) },
           { rows := [proRow "a@b.com" "2025-01-01T00:00:00.000Z"],
             calls := [.insert (proRow "a@b.com" "2025-01-01T00:00:00.000Z")] }) ∧
    (ingestAll emptyWorld
        [(envVerified (checkoutEvent (.str "a@b.com")), .buffer [123, 125], .str "t=1,v1=00"),
         (envVerified (checkoutEvent (.str "a@b.com")), .buffer [123, 125],
           .str "t=1,v1=00")]).rows =
      [proRow "a@b.com" "2025-01-01T00:00:00.000Z",
       proRow "a@b.com" "2025-01-01T00:00:00.000Z"] :=
  ⟨completedCheckout_sample,
    stripeWebhook_inserts_one_row_each_time _ _ emptyWorld _ _ "a@b.com"
      completedCheckout_sample completedCheckout_sample⟩

/-- C7: a verified event whose type is not `checkout.session.completed` is answered
200 with `received: true`, and the world is unchanged: no row is written and no
request is sent to the store. -/
theorem stripeWebhook_ignores_other_events (env : Env) (w : World) (body : ReqBody)
    (sig : JsVal) (event type : JsVal)
    (hv : env.constructEvent body sig = .ok event)
    (ht : event.prop "type" = .ok type)
    (hne : type ≠ .str "checkout.session.completed") :
    stripeWebhook env w body sig =
      .ok ({ status := 200, body := .json (.obj [("received", .bool true)]) }, w) := by
  have hs : type.isStr "checkout.session.completed" = false := by
    cases type <;> simp [JsVal.isStr] at hne ⊢
    exact hne
  simp [stripeWebhook, hv, ht, hs, bind, Except.bind, pure, Except.pure, received]

theorem stripeWebhook_ignores_other_events_witness :
    (envVerified invoiceEvent).constructEvent (.buffer [123, 125]) (.str "t=1,v1=00") =
        .ok invoiceEvent ∧
    invoiceEvent.prop "type" = .ok (.str "invoice.paid") ∧
    JsVal.str "invoice.paid" ≠ .str "checkout.session.completed" ∧
    stripeWebhook (envVerified invoiceEvent) emptyWorld (.buffer [123, 125])
        (.str "t=1,v1=00") =
      .ok ({ status := 200, body := .json (.obj [("received", .bool true)]) }, emptyWorld) :=
  ⟨rfl, rfl, by simp,
    stripeWebhook_ignores_other_events (envVerified invoiceEvent) emptyWorld _ _
      invoiceEvent (.str "invoice.paid") rfl rfl (by simp)⟩

/-! ## Entitlement check -/

/-- C4 (the code departs from the claim): a table holding two Pro rows for
`a@b.com`, which is what two deliveries of the same checkout leave behind,
contains a matching row with `isPro = true`, and the lookup request itself does not
fail; yet `maybeSingle` turns the two matching rows into an error and
`isProUserByEmail` returns false. -/
theorem isProUserByEmail_false_on_two_pro_rows :
    (∃ r ∈ [proRow "a@b.com" "t1", proRow "a@b.com" "t2"],
        r.email = "a@b.com" ∧ r.isPro = .bool true) ∧
    (envVerified .null).selectFault = none ∧
    (lookup (envVerified .null)
        { rows := [proRow "a@b.com" "t1", proRow "a@b.com" "t2"], calls := [] }
        (.str "a@b.com")).error.truthy = true ∧
    (isProUserByEmail (envVerified .null)
        { rows := [proRow "a@b.com" "t1", proRow "a@b.com" "t2"], calls := [] }
        (.str "a@b.com")).1 = false := by
  refine ⟨⟨proRow "a@b.com" "t1", by simp, rfl, rfl⟩, rfl, rfl, rfl⟩

lemma lookup_no_match (env : Env) (w : World) (email : JsVal)
    (h : ∀ r ∈ w.rows, r.email ≠ email.toJsString) :
    (lookup env w email).data = .null := by
  have hnil : w.rows.filter (fun r => eqFilter r.email email) = [] := by
    rw [List.filter_eq_nil_iff]
    intro r hr
    simp [eqFilter, h r hr]
  unfold lookup selectIsPro
  rw [hnil]
  cases env.selectFault <;> rfl

lemma entitled_false (r : QueryResult)
    (h : r.data = .null ∨ r.data.optProp "isPro" ≠ .bool true ∨ r.error.truthy = true) :
    entitled r = false := by
  unfold entitled
  rcases h with h | h | h
  · simp [h, JsVal.optProp, JsVal.isTrue]
  · split
    · rfl
    · generalize r.data.optProp "isPro" = v at h
      cases v <;> simp [JsVal.isTrue] at h ⊢
  · simp [h]

lemma isProUserByEmailSteps_toJs (r : QueryResult) :
    isProUserByEmailSteps r.toJs = .ok (entitled r) := by
  simp only [isProUserByEmailSteps, QueryResult.toJs, JsVal.prop, entitled, bind, Except.bind,
    pure, Except.pure]
  have h1 : List.lookup "data" [("data", r.data), ("error", r.error)] = some r.data := rfl
  have h2 : List.lookup "error" [("data", r.data), ("error", r.error)] = some r.error := rfl
  rw [h1, h2]
  simp only [Option.getD_some]
  split <;> rfl

/-- C5: for every value passed as email, every table and every outcome of the
lookup request, the body of `isProUserByEmail` run on the awaited result does not
throw and returns the value of `isProUserByEmail`; that value is false whenever no
row of the table has the email as its text, the lookup yields no row (`data` is
null), yields a row whose `isPro` is not `true`, or reports an error. -/
theorem isProUserByEmail_fail_closed (env : Env) (w : World) (email : JsVal)
    (h : (∀ r ∈ w.rows, r.email ≠ email.toJsString) ∨
         (lookup env w email).data = .null ∨
         (lookup env w email).data.optProp "isPro" ≠ .bool true ∨
         (lookup env w email).error.truthy = true) :
    isProUserByEmailSteps (lookup env w email).toJs = .ok false ∧
    (isProUserByEmail env w email).1 = false := by
  have hf : entitled (lookup env w email) = false := by
    apply entitled_false
    rcases h with h | h
    · exact Or.inl (lookup_no_match env w email h)
    · exact h
  refine ⟨?_, ?_⟩
  · rw [isProUserByEmailSteps_toJs, hf]
  · simpa [isProUserByEmail] using hf

theorem isProUserByEmail_fail_closed_witness :
    ((∀ r ∈ ({ rows := [proRow "a@b.com" "t1"], calls := [] } : World).rows,
        r.email ≠ (JsVal.str "a@b.com").toJsString) ∨
      (lookup envFailing { rows := [proRow "a@b.com" "t1"], calls := [] }
          (.str "a@b.com")).data = .null ∨
      (lookup envFailing { rows := [proRow "a@b.com" "t1"], calls := [] }
          (.str "a@b.com")).data.optProp "isPro" ≠ .bool true ∨
      (lookup envFailing { rows := [proRow "a@b.com" "t1"], calls := [] }
          (.str "a@b.com")).error.truthy = true) ∧
    isProUserByEmailSteps
        (lookup envFailing { rows := [proRow "a@b.com" "t1"], calls := [] }
          (.str "a@b.com")).toJs = .ok false ∧
    (isProUserByEmail envFailing { rows := [proRow "a@b.com" "t1"], calls := [] }
        (.str "a@b.com")).1 = false :=
  ⟨Or.inr (Or.inr (Or.inr rfl)),
    isProUserByEmail_fail_closed envFailing { rows := [proRow "a@b.com" "t1"], calls := [] }
      (.str "a@b.com") (Or.inr (Or.inr (Or.inr rfl)))⟩

/-- C6 (the code departs from the claim): with one Pro row for `a@b.com` the check
returns true; after one more verified `checkout.session.completed` delivery for
the same email, with no store failure anywhere, the table holds two rows for it
and the check returns false. -/
theorem entitlement_lost_after_repeated_checkout :
    (envVerified (checkoutEvent (.str "a@b.com"))).insertFault = none ∧
    (envVerified (checkoutEvent (.str "a@b.com"))).selectFault = none ∧
    (isProUserByEmail (envVerified (checkoutEvent (.str "a@b.com")))
        { rows := [proRow "a@b.com" "t0"], calls := [] } (.str "a@b.com")).1 = true ∧
    (ingestAll { rows := [proRow "a@b.com" "t0"], calls := [] }
        [(envVerified (checkoutEvent (.str "a@b.com")), .buffer [123, 125],
          .str "t=1,v1=00")]).rows =
      [proRow "a@b.com" "t0", proRow "a@b.com" "2025-01-01T00:00:00.000Z"] ∧
    (isProUserByEmail (envVerified (checkoutEvent (.str "a@b.com")))
        (ingestAll { rows := [proRow "a@b.com" "t0"], calls := [] }
          [(envVerified (checkoutEvent (.str "a@b.com")), .buffer [123, 125],
            .str "t=1,v1=00")])
        (.str "a@b.com")).1 = false :=
  ⟨rfl, rfl, rfl, rfl, rfl⟩

/-! ## The `/check-pro` routes -/

/-- C8: when `req.query` (GET) or `req.body` (POST) is an object without an `email`
field, the handler answers 400 with the JSON object `isPro: false, error: "Missing
email"`, and the world is unchanged: no request is sent to the store. -/
theorem checkPro_missing_email (env : Env) (w : World) (fields : List (String × JsVal))
    (h : fields.lookup "email" = none) :
    checkProGet env w (.obj fields) =
      .ok ({ status := 400,
             body := .json (.obj [("isPro", .bool false), ("error", .str "Missing email")]) },
           w) ∧
    checkProPost env w (.obj fields) =
      .ok ({ status := 400,
             body := .json (.obj [("isPro", .bool false), ("error", .str "Missing email")]) },
           w) := by
  simp [checkProGet, checkProPost, checkPro, JsVal.prop, h, bind, Except.bind, pure,
    Except.pure, JsVal.truthy, missingEmailCheck]

theorem checkPro_missing_email_witness :
    [("name", JsVal.str "x")].lookup "email" = none ∧
    checkProGet (envVerified .null) { rows := [proRow "a@b.com" "t0"], calls := [] }
        (.obj [("name", .str "x")]) =
      .ok ({ status := 400,
             body := .json (.obj [("isPro", .bool false), ("error", .str "Missing email")]) },
           { rows := [proRow "a@b.com" "t0"], calls := [] }) ∧
    checkProPost (envVerified .null) { rows := [proRow "a@b.com" "t0"], calls := [] }
        (.obj [("name", .str "x")]) =
      .ok ({ status := 400,
             body := .json (.obj [("isPro", .bool false), ("error", .str "Missing email")]) },
           { rows := [proRow "a@b.com" "t0"], calls := [] }) :=
  ⟨rfl, checkPro_missing_email (envVerified .null) _ [("name", .str "x")] rfl⟩

/-! ## The `/analyze` route -/

lemma summaryText_of_firstChoiceText (data v : JsVal)
    (h : firstChoiceText data = .ok v) (ht : v.truthy = true) :
    summaryText data = .ok v := by
  unfold firstChoiceText at h
  unfold summaryText
  cases hc : data.prop "choices" with
  | error m => simp [hc, bind, Except.bind] at h
  | ok choices =>
    simp only [hc, bind, Except.bind, pure, Except.pure, Except.ok.injEq] at h ⊢
    subst h
    cases choices with
    | undefined => simp [JsVal.optIndex, JsVal.optProp, JsVal.truthy] at ht
    | null => simp [JsVal.optIndex, JsVal.optProp, JsVal.truthy] at ht
    | bool b => simp [JsVal.optIndex, JsVal.optProp, JsVal.truthy] at ht
    | num n => simp [JsVal.optIndex, JsVal.optProp, JsVal.truthy] at ht
    | str s =>
      exfalso
      simp only [JsVal.optIndex] at ht
      split at ht <;> simp [JsVal.optProp, JsVal.truthy] at ht
    | arr xs =>
      simp only [JsVal.index]
      generalize (JsVal.arr xs).optIndex 0 = c at ht ⊢
      cases c <;> simp [JsVal.optProp, JsVal.truthy, JsVal.prop] at ht ⊢
    | obj fs =>
      simp only [JsVal.index]
      generalize (JsVal.obj fs).optIndex 0 = c at ht ⊢
      cases c <;> simp [JsVal.optProp, JsVal.truthy, JsVal.prop] at ht ⊢

/-- C9: the response of `/analyze` does not depend on the entitlement check: with
the same request body and the same completion outcome, any two tables and any two
outcomes of the lookup give the same response.  In particular, for a body with
truthy `selectedText` and `email` whose entitlement check returns false, a
completion whose first choice carries the non-empty text `t` is answered 200 with
`summary: t`. -/
theorem analyze_ignores_entitlement (env : Env) (body : JsVal) :
    (∀ (w w2 : World) (fault fault2 : Option String),
      responseOf (analyze { env with selectFault := fault } w body) =
        responseOf (analyze { env with selectFault := fault2 } w2 body)) ∧
    (∀ (w : World) (selectedText email data : JsVal) (t : String),
      body.prop "selectedText" = .ok selectedText → selectedText.truthy = true →
      body.prop "email" = .ok email → email.truthy = true →
      (isProUserByEmail env w email).1 = false →
      env.completion selectedText = .ok data →
      firstChoiceText data = .ok (.str t) → t ≠ "" →
      responseOf (analyze env w body) =
        .ok { status := 200, body := .json (.obj [("summary", .str t)]) }) := by
  constructor
  · intro w w2 fault fault2
    unfold analyze
    cases hs : body.prop "selectedText" with
    | error m => simp [bind, Except.bind, responseOf]
    | ok selectedText =>
      cases he : body.prop "email" with
      | error m => simp [bind, Except.bind, responseOf]
      | ok email =>
        simp only [bind, Except.bind, pure, Except.pure]
        split
        · rfl
        · have hr : ∀ f : Option String,
              relayCompletion { env with selectFault := f } selectedText =
                relayCompletion env selectedText := fun _ => rfl
          simp only [isProUserByEmail, hr]
          cases relayCompletion env selectedText <;> rfl
  · intro w selectedText email data t hs hst he het _ hc hf hne
    have htt : (JsVal.str t).truthy = true := by simp [JsVal.truthy, hne]
    have hsum := summaryText_of_firstChoiceText data (.str t) hf htt
    simp [analyze, hs, he, hst, het, bind, Except.bind, pure, Except.pure, isProUserByEmail,
      relayCompletion, hc, hf, htt, hsum, responseOf]

theorem analyze_ignores_entitlement_witness :
    (isProUserByEmail (envCompletion "Pros: none.") emptyWorld (.str "x@y.com")).1 = false ∧
    responseOf (analyze (envCompletion "Pros: none.") emptyWorld analyzeBody) =
      .ok { status := 200, body := .json (.obj [("summary", .str "Pros: none.")]) } :=
  ⟨rfl,
    (analyze_ignores_entitlement (envCompletion "Pros: none.") analyzeBody).2 emptyWorld
      (.str "We collect your location.") (.str "x@y.com") (completionWith "Pros: none.")
      "Pros: none." rfl rfl rfl rfl rfl rfl rfl (by decide)⟩

/-! ## Shape of the failure responses -/

/-- C10 as stated fails: the three failure exits of `POST /stripe-webhook` (bad
signature, missing email, store write failure) send a plain text, not a JSON
object. -/
theorem stripeWebhook_failures_are_plain_text :
    responseOf (stripeWebhook envFailing emptyWorld (.json (.obj [])) .undefined) =
      .ok { status := 400,
            body := .text "Webhook Error: No signatures found matching the expected signature for payload" } ∧
    responseOf (stripeWebhook (envVerified (checkoutEvent .null)) emptyWorld
        (.buffer [123, 125]) (.str "t=1,v1=00")) =
      .ok { status := 400, body := .text "Missing email" } ∧
    responseOf (stripeWebhook (envInsertFails (checkoutEvent (.str "a@b.com"))) emptyWorld
        (.buffer [123, 125]) (.str "t=1,v1=00")) =
      .ok { status := 500, body := .text "Failed to store Pro user" } ∧
    (Body.text "Webhook Error: No signatures found matching the expected signature for payload").isJsonObject = false ∧
    (Body.text "Missing email").isJsonObject = false ∧
    (Body.text "Failed to store Pro user").isJsonObject = false :=
  ⟨rfl, rfl, rfl, rfl, rfl, rfl⟩

lemma checkPro_failure (env : Env) (w : World) (email : JsVal)
    (hs : (checkPro env w email).1.status ≠ 200) :
    (checkPro env w email).1.body.hasField "error" = true := by
  unfold checkPro at hs ⊢
  split
  · rfl
  · rename_i h
    simp [h, isProUserByEmail] at hs

lemma checkProGet_failure (env : Env) (w w1 : World) (query : JsVal) (res : Response)
    (h : checkProGet env w query = .ok (res, w1)) (hs : res.status ≠ 200) :
    res.body.hasField "error" = true := by
  unfold checkProGet at h
  cases he : query.prop "email" with
  | error m => simp [he, bind, Except.bind] at h
  | ok email =>
    simp only [he, bind, Except.bind, pure, Except.pure, Except.ok.injEq] at h
    have := checkPro_failure env w email
    rw [h] at this
    exact this hs

lemma checkProPost_failure (env : Env) (w w1 : World) (body : JsVal) (res : Response)
    (h : checkProPost env w body = .ok (res, w1)) (hs : res.status ≠ 200) :
    res.body.hasField "error" = true := by
  unfold checkProPost at h
  cases he : body.prop "email" with
  | error m => simp [he, bind, Except.bind] at h
  | ok email =>
    simp only [he, bind, Except.bind, pure, Except.pure, Except.ok.injEq] at h
    have := checkPro_failure env w email
    rw [h] at this
    exact this hs

lemma createCheckoutSession_failure (env : Env) (w w1 : World) (body : JsVal)
    (res : Response) (h : createCheckoutSession env w body = .ok (res, w1))
    (hs : res.status ≠ 200) : res.body.hasField "error" = true := by
  unfold createCheckoutSession at h
  cases hp : body.prop "priceId" with
  | error m => simp [hp, bind, Except.bind] at h
  | ok priceId =>
    cases he : body.prop "email" with
    | error m => simp [hp, he, bind, Except.bind] at h
    | ok email =>
      simp only [hp, he, bind, Except.bind, pure, Except.pure] at h
      split at h
      · cases h; rfl
      · split at h
        · cases h; exact absurd rfl hs
        · cases h; rfl

lemma relayCompletion_failure (env : Env) (selectedText : JsVal) (res : Response)
    (h : relayCompletion env selectedText = .ok res) (hs : res.status ≠ 200) :
    res.body.hasField "error" = true := by
  unfold relayCompletion at h
  cases hc : env.completion selectedText with
  | error m => simp [hc, bind, Except.bind] at h
  | ok data =>
    cases hf : firstChoiceText data with
    | error m => simp [hc, hf, bind, Except.bind] at h
    | ok text =>
      simp only [hc, hf, bind, Except.bind, pure, Except.pure] at h
      split at h
      · cases hsum : summaryText data with
        | error m => simp [hsum] at h
        | ok summary =>
          simp only [hsum, Except.ok.injEq] at h
          subst h
          exact absurd rfl hs
      · cases h; rfl

lemma analyze_failure (env : Env) (w w1 : World) (body : JsVal) (res : Response)
    (h : analyze env w body = .ok (res, w1)) (hs : res.status ≠ 200) :
    res.body.hasField "error" = true := by
  unfold analyze at h
  cases hp : body.prop "selectedText" with
  | error m => simp [hp, bind, Except.bind] at h
  | ok selectedText =>
    cases he : body.prop "email" with
    | error m => simp [hp, he, bind, Except.bind] at h
    | ok email =>
      simp only [hp, he, bind, Except.bind, pure, Except.pure] at h
      split at h
      · cases h; rfl
      · cases hr : relayCompletion env selectedText with
        | error m =>
          simp only [hr] at h
          cases h; rfl
        | ok r =>
          simp only [hr, Except.ok.injEq, Prod.mk.injEq] at h
          obtain ⟨h1, _⟩ := h
          subst h1
          exact relayCompletion_failure env selectedText r hr hs

lemma stripeWebhook_failure (env : Env) (w w1 : World) (body : ReqBody) (sig : JsVal)
    (res : Response) (h : stripeWebhook env w body sig = .ok (res, w1))
    (hs : res.status ≠ 200) : ∃ t, res.body = .text t := by
  unfold stripeWebhook at h
  cases hv : env.constructEvent body sig with
  | error m =>
    simp only [hv, Except.ok.injEq, Prod.mk.injEq] at h
    obtain ⟨h1, _⟩ := h
    subst h1
    exact ⟨_, rfl⟩
  | ok event =>
    cases ht : event.prop "type" with
    | error m => simp [hv, ht, bind, Except.bind] at h
    | ok type =>
      simp only [hv, ht, bind, Except.bind, pure, Except.pure] at h
      split at h
      · cases hse : sessionEmail event with
        | error m => simp [hse] at h
        | ok email =>
          simp only [hse] at h
          split at h
          · cases h; exact ⟨_, rfl⟩
          · split at h
            · cases h; exact ⟨_, rfl⟩
            · cases h; exact absurd rfl hs
      · cases h; exact absurd rfl hs

/-- C10 amended: on `GET /check-pro`, `POST /check-pro`,
`POST /create-checkout-session` and `POST /analyze`, every response the handler
sends with status 400 or 500 is a JSON object with an `error` field; on
`POST /stripe-webhook` every such response is a plain text. -/
theorem failure_bodies (env : Env) (w w1 : World) (res : Response)
    (hs : res.status = 400 ∨ res.status = 500) :
    (∀ v : JsVal,
      (checkProGet env w v = .ok (res, w1) ∨ checkProPost env w v = .ok (res, w1) ∨
        createCheckoutSession env w v = .ok (res, w1) ∨ analyze env w v = .ok (res, w1)) →
      res.body.isJsonObject = true ∧ res.body.hasField "error" = true) ∧
    (∀ (body : ReqBody) (sig : JsVal),
      stripeWebhook env w body sig = .ok (res, w1) → ∃ t, res.body = .text t) := by
  have hne : res.status ≠ 200 := by
    rcases hs with h | h <;> simp [h]
  have hobj : res.body.hasField "error" = true → res.body.isJsonObject = true := by
    intro hf
    cases hb : res.body with
    | text t => simp [hb, Body.hasField] at hf
    | json j => cases j <;> simp [hb, Body.hasField, Body.isJsonObject] at hf ⊢
  constructor
  · intro v h
    have hf : res.body.hasField "error" = true := by
      rcases h with h | h | h | h
      · exact checkProGet_failure env w w1 v res h hne
      · exact checkProPost_failure env w w1 v res h hne
      · exact createCheckoutSession_failure env w w1 v res h hne
      · exact analyze_failure env w w1 v res h hne
    exact ⟨hobj hf, hf⟩
  · intro body sig h
    exact stripeWebhook_failure env w w1 body sig res h hne

theorem failure_bodies_witness :
    ((400 : Nat) = 400 ∨ (400 : Nat) = 500) ∧
    checkProPost envFailing emptyWorld (.obj []) =
      .ok ({ status := 400,
             body := .json (.obj [("isPro", .bool false), ("error", .str "Missing email")]) },
           emptyWorld) ∧
    (Body.json (.obj [("isPro", .bool false), ("error", .str "Missing email")])).hasField
      "error" = true :=
  ⟨Or.inl rfl, rfl,
    ((failure_bodies envFailing emptyWorld emptyWorld
        { status := 400,
          body := .json (.obj [("isPro", .bool false), ("error", .str "Missing email")]) }
        (Or.inl rfl)).1 (.obj []) (Or.inr (Or.inl rfl))).2⟩

end ProconBackend
